import Mathlib

/-!
Verification development for the Tungsten renderer sources
(`src/core/integrators/bidirectional_path_tracer/BidirectionalPathTracer.hpp`
and `src/tungsten/Shared.hpp`).

The bidirectional path tracer header only declares
`traceCameraPath`, `traceLightPath`, `traceSample`, the `AtomicFramebuffer`
splat buffer and the `Distribution1D` light sampler; their bodies are not in
the repository snapshot.  Those components are therefore modelled from the
specification, each such definition carrying a doc comment that says so.
`Shared.hpp` (`StandaloneRenderer`, `RendererStatus`) is present in full and
is embedded directly from the source.

Real-valued quantities (radiance, pdfs, throughput) are modelled over `ℚ`;
a possibly non-finite floating-point value is `Option ℚ`, with `none`
standing for NaN/±Inf.
-/

namespace Tungsten

/-- Modelled from the spec: the balance-heuristic MIS weight of the
Connection & MIS Evaluator (spec §4.4).  For a fixed total path length
`k = s + t`, each valid alternative strategy is a pair `(s', t')` with
`s' + t' = k`; `pdf` assigns each strategy its sampling density for the
combined path; the weight of a strategy is its own density divided by the
sum of the densities of all valid strategies. -/
def misWeight (pdf : ℕ × ℕ → ℚ) (valid : Finset (ℕ × ℕ)) (st : ℕ × ℕ) : ℚ :=
  pdf st / ∑ q ∈ valid, pdf q

/-- Modelled from the spec: the Russian roulette continuation probability of
the path constructors (spec §4.2, §7): `min(1, luminance(throughput))`,
clamped into `(0, 1]`. -/
def rouletteProbability (lum : ℚ) : ℚ :=
  min 1 lum

/-- Modelled from the spec: the value produced by one Russian roulette step
(spec §4.2): if the path survives, throughput is divided by the continuation
probability; otherwise the contribution is zero. -/
def rouletteOutcome (p T : ℚ) (survive : Bool) : ℚ :=
  if survive then T / p else 0

/-- Modelled from the spec: the expectation of the Russian roulette step,
surviving with probability `p` and dying with probability `1 - p`. -/
def rouletteExpectation (p T : ℚ) : ℚ :=
  p * rouletteOutcome p T true + (1 - p) * rouletteOutcome p T false

/-- Modelled from the spec: the outcome of one random-walk step as reported
by the external collaborators (intersector + BSDF, spec §4.2/§6): either a
miss, or a hit carrying the forward pdf of the sampled direction and the
throughput multiplier (`none` models a non-finite floating-point value). -/
inductive StepResult where
  | miss : StepResult
  | hit (pdfForward : ℚ) (weight : Option ℚ) : StepResult
deriving DecidableEq

/-- Modelled from the spec: a path vertex (spec §3), reduced to the fields
the claims are about: the forward sampling density and the accumulated
throughput (`none` models a non-finite floating-point value). -/
structure PathVertex where
  pdfForward : ℚ
  throughput : Option ℚ
deriving DecidableEq

/-- Modelled from the spec: the read-only scene/collaborator data a trace
consumes (spec §6): per-light powers for the light sampler, the camera pdf
per pixel, the emission-sampling pdf, the step oracles answering
intersector/BSDF queries for camera and light walks, the connection
BSDF/geometry term, the camera inverse projection, the roulette warm-up
depth and the maximum bounce count. -/
structure SceneModel where
  lights : List ℚ
  cameraPdf : ℕ → ℚ
  emissionPdf : ℚ
  step : ℕ → ℕ → ℚ → StepResult
  lightStep : ℕ → ℚ → StepResult
  geom : ℕ → ℕ → ℚ
  reproject : ℕ → ℕ
  warmupDepth : ℕ
  maxBounces : ℕ

/-- Modelled from the spec: the random walk shared by both path constructors
(spec §4.2/§4.3, §7).  At each step the intersector/BSDF oracle is queried;
a miss terminates; a non-finite (`none`) or negative throughput, or a
non-positive forward pdf, terminates the walk without storing the vertex;
otherwise the vertex is stored and, past the warm-up depth, Russian roulette
decides continuation, dividing throughput by the continuation probability on
survival.  The fuel argument is the hard bounce cap. -/
def traceWalk (step : ℕ → ℚ → StepResult) (rng : ℕ → ℚ) (warmup : ℕ) :
    ℕ → ℕ → ℚ → List PathVertex
  | 0, _, _ => []
  | fuel + 1, depth, tp =>
    match step depth (rng (2 * depth)) with
    | StepResult.miss => []
    | StepResult.hit _ none => []
    | StepResult.hit pdfF (some wv) =>
      if pdfF ≤ 0 ∨ tp * wv < 0 then []
      else if depth < warmup then
        ⟨pdfF, some (tp * wv)⟩ :: traceWalk step rng warmup fuel (depth + 1) (tp * wv)
      else if rng (2 * depth + 1) < rouletteProbability (tp * wv) then
        ⟨pdfF, some (tp * wv)⟩ ::
          traceWalk step rng warmup fuel (depth + 1) (tp * wv / rouletteProbability (tp * wv))
      else [⟨pdfF, some (tp * wv)⟩]

/-- Modelled from the spec: `traceCameraPath` (spec §4.2).  Vertex 0 is the
camera vertex with the camera's pdf for the traced pixel; the remaining
vertices come from the shared random walk, capped at the maximum bounce
count. -/
def traceCameraPath (scene : SceneModel) (pixel : ℕ) (rng : ℕ → ℚ) : List PathVertex :=
  if scene.cameraPdf pixel ≤ 0 then []
  else ⟨scene.cameraPdf pixel, some 1⟩ ::
    traceWalk (scene.step pixel) rng scene.warmupDepth scene.maxBounces 1 1

/-- Modelled from the spec: cumulative-distribution search of the light
sampler (spec §4.1): walks the per-light weights until the running target
drops below the current weight, returning the chosen index and its weight. -/
def lightPickAux : List ℚ → ℚ → ℕ → ℕ × ℚ
  | [], _, idx => (idx, 0)
  | w :: rest, target, idx =>
    if target < w then (idx, w) else lightPickAux rest (target - w) (idx + 1)

/-- Modelled from the spec: `traceLightPath` (spec §4.3, §7).  If the scene
has no lights (or no total power) the light path is empty — not an error.
Otherwise vertex 0 is seeded from the sampled light with pdf = light-choice
probability × emission-sampling pdf, followed by the shared random walk. -/
def traceLightPath (scene : SceneModel) (rng : ℕ → ℚ) : List PathVertex :=
  if scene.lights = [] then []
  else if scene.lights.sum ≤ 0 then []
  else if (lightPickAux scene.lights (rng 0 * scene.lights.sum) 0).2 / scene.lights.sum *
      scene.emissionPdf ≤ 0 then []
  else ⟨(lightPickAux scene.lights (rng 0 * scene.lights.sum) 0).2 / scene.lights.sum *
      scene.emissionPdf, some 1⟩ ::
    traceWalk scene.lightStep rng scene.warmupDepth scene.maxBounces 1 1

/-- Throughput of the `k`-vertex long path prefix: 1 for an empty prefix,
otherwise the accumulated throughput stored at vertex `k - 1`. -/
def pathThroughput (path : List PathVertex) (k : ℕ) : ℚ :=
  if k = 0 then 1 else ((path.getD (k - 1) ⟨1, some 1⟩).throughput).getD 0

/-- Modelled from the spec: the unweighted-and-MIS-weighted contribution of
strategy `(s, t)` (spec §4.4), with the connecting BSDF/geometry/MIS factor
supplied by the scene model's `geom` oracle. -/
def stContribution (scene : SceneModel) (cp lp : List PathVertex) (s t : ℕ) : ℚ :=
  pathThroughput cp s * pathThroughput lp t * scene.geom s t

/-- Modelled from the spec: the primary per-pixel estimate (spec §4.4, §4.6):
the sum over all strategies `(s, t)` with `s ≥ 1` (those route to the traced
pixel) within the configured bounce range. -/
def primaryEstimate (scene : SceneModel) (cp lp : List PathVertex) : ℚ :=
  ∑ s ∈ Finset.range (cp.length + 1), ∑ t ∈ Finset.range (lp.length + 1),
    if 1 ≤ s ∧ 2 ≤ s + t ∧ s + t ≤ scene.maxBounces + 2 then
      stContribution scene cp lp s t
    else 0

/-- Modelled from the spec: the off-pixel splat contributions (spec §4.4,
§4.7): the `s = 0` strategies, routed to the camera-reprojected pixel. -/
def splatContributions (scene : SceneModel) (cp lp : List PathVertex) : List (ℕ × ℚ) :=
  (List.range (lp.length + 1)).filterMap fun t =>
    if 2 ≤ t ∧ t ≤ scene.maxBounces + 2 then
      some (scene.reproject t, stContribution scene cp lp 0 t)
    else none

/-- Modelled from the spec: `traceSample` (spec §4.6): builds one camera path
and one light path from disjoint parts of the deterministic random stream,
and returns the primary RGB estimate together with the list of splat writes.
It is a pure function of the scene, the stream and the pixel. -/
def traceSample (scene : SceneModel) (rng : ℕ → ℚ) (pixel : ℕ) : ℚ × List (ℕ × ℚ) :=
  (primaryEstimate scene (traceCameraPath scene pixel fun i => rng (2 * i))
      (traceLightPath scene fun i => rng (2 * i + 1)),
    splatContributions scene (traceCameraPath scene pixel fun i => rng (2 * i))
      (traceLightPath scene fun i => rng (2 * i + 1)))

/-- Modelled from the spec: the `t = 0` plain path-tracing estimate alone
(spec §4.4, §7): what `traceSample` must reduce to when no light path
exists. -/
def pathTracingOnlyEstimate (scene : SceneModel) (cp : List PathVertex) : ℚ :=
  ∑ s ∈ Finset.range (cp.length + 1),
    if 2 ≤ s ∧ s ≤ scene.maxBounces + 2 then stContribution scene cp [] s 0 else 0

/-- Modelled from the spec: the Splat Accumulator (spec §4.5), one radiance
sum and one sample count per pixel. -/
structure SplatBuffer where
  radiance : ℕ → ℚ
  sampleCount : ℕ → ℕ

/-- Modelled from the spec: `addSplat(pixel, value)` (spec §4.5): one atomic
update adding `value` into the pixel's accumulated radiance and incrementing
its sample count. -/
def addSplat (b : SplatBuffer) (pixel : ℕ) (value : ℚ) : SplatBuffer where
  radiance := fun q => if q = pixel then b.radiance q + value else b.radiance q
  sampleCount := fun q => if q = pixel then b.sampleCount q + 1 else b.sampleCount q

/-- One interleaving of concurrent `addSplat` calls: since each call is a
single atomic update, an interleaving is a sequence applying the calls in
some order. -/
def applySplats (b : SplatBuffer) (ops : List (ℕ × ℚ)) : SplatBuffer :=
  ops.foldl (fun acc op => addSplat acc op.1 op.2) b

/-- Concrete scene used to instantiate theorems with hypotheses. -/
def sampleScene : SceneModel where
  lights := [1]
  cameraPdf := fun _ => 1
  emissionPdf := 1
  step := fun _ _ _ => StepResult.miss
  lightStep := fun _ _ => StepResult.miss
  geom := fun _ _ => 1
  reproject := fun _ => 0
  warmupDepth := 0
  maxBounces := 4

/-- Value of the `STATE_LOADING` enumerator of `RenderState`
(`Shared.hpp:52`); `RenderState` is modelled as its underlying integer so
that values outside the enumerators are representable, as in C++. -/
def STATE_LOADING : ℤ := 0

/-- Value of the `STATE_RENDERING` enumerator of `RenderState`
(`Shared.hpp:52`). -/
def STATE_RENDERING : ℤ := 1

/-- Embeds `renderStateToString` (`Shared.hpp:58`): `"loading"` for
`STATE_LOADING`, `"rendering"` for `STATE_RENDERING`, `"unknown"` for the
default case. -/
def renderStateToString (s : ℤ) : String :=
  if s = STATE_LOADING then "loading"
  else if s = STATE_RENDERING then "rendering"
  else "unknown"

/-- Model of a `rapidjson::Value` member as emitted by
`RendererStatus::toJson`: a string, an integer, or an array of path
strings. -/
inductive JsonValue where
  | str (s : String) : JsonValue
  | num (n : ℤ) : JsonValue
  | arr (elems : List String) : JsonValue
deriving DecidableEq

/-- Embeds `RendererStatus` (`Shared.hpp:67`); `Path` values are modelled as
strings. -/
structure RendererStatus where
  state : ℤ
  currentSpp : ℤ
  nextSpp : ℤ
  totalSpp : ℤ
  completedScenes : List String
  currentScene : String
  queuedScenes : List String

/-- Embeds `RendererStatus::toJson` (`Shared.hpp:78`): the produced JSON
object as its ordered member list (`AddMember` appends).  The
`completed_scenes` and `queued_scenes` arrays are added only when the
corresponding container is non-empty. -/
def RendererStatus.toJson (r : RendererStatus) : List (String × JsonValue) :=
  [("state", JsonValue.str (renderStateToString r.state)),
   ("current_spp", JsonValue.num r.currentSpp),
   ("next_spp", JsonValue.num r.nextSpp),
   ("total_spp", JsonValue.num r.totalSpp),
   ("current_scene", JsonValue.str r.currentScene)] ++
  (if r.completedScenes = [] then []
   else [("completed_scenes", JsonValue.arr r.completedScenes)]) ++
  (if r.queuedScenes = [] then []
   else [("queued_scenes", JsonValue.arr r.queuedScenes)])

/-- Data of a loaded `Scene` as far as `StandaloneRenderer` reads it: the
configured samples per pixel, the camera resolution, and the camera
framebuffer contents (`camera()->get(x, y)`, one rational per colour
channel). -/
structure SceneData where
  spp : ℤ
  resX : ℕ
  resY : ℕ
  framebufferValue : ℕ → ℕ → ℚ × ℚ × ℚ

/-- Embeds the mutable state of `StandaloneRenderer` (`Shared.hpp:105`) that
`renderScene` and `frameBuffer` touch: the status record, the loaded scene
(`_scene`, `none` when reset) and whether `_flattenedScene` is set. -/
structure StandaloneRenderer where
  status : RendererStatus
  scene : Option SceneData
  flattenedScene : Bool

/-- Outcome of the external collaborators inside `renderScene`: the scene
load succeeds or throws `std::runtime_error`, and the render try-block
(makeTraceable, resume, render loop, checkpoint/output saving) succeeds or
throws `std::runtime_error`. -/
inductive RenderOutcome where
  | success : RenderOutcome
  | loadError : RenderOutcome
  | renderError : RenderOutcome

/-- Embeds `StandaloneRenderer::renderScene` (`Shared.hpp:176`).  Returns
`false` leaving the state untouched when the queue is empty; otherwise pops
the front scene, resets the status counters, and runs load + render with the
given collaborator outcome, catching `std::runtime_error` from either phase
(logging is not modelled; status updates made inside the render loop depend
on the external integrator and are likewise not modelled). -/
def StandaloneRenderer.renderScene (r : StandaloneRenderer) (outcome : RenderOutcome)
    (loaded : SceneData) : Bool × StandaloneRenderer :=
  match r.status.queuedScenes with
  | [] => (false, r)
  | front :: rest =>
    let r1 : StandaloneRenderer :=
      { r with
        status := { r.status with
                    state := STATE_LOADING
                    currentSpp := 0
                    nextSpp := 0
                    totalSpp := 0
                    currentScene := front
                    queuedScenes := rest } }
    match outcome with
    | RenderOutcome.loadError => (true, { r1 with scene := none })
    | RenderOutcome.renderError =>
      (true, { r1 with
               status := { r1.status with totalSpp := loaded.spp }
               scene := none
               flattenedScene := false })
    | RenderOutcome.success =>
      (true, { r1 with
               status := { r1.status with
                           totalSpp := loaded.spp
                           completedScenes := r.status.completedScenes ++ [front] }
               scene := none
               flattenedScene := false })

/-- Embeds the C++ float-to-int conversion (truncation toward zero) used by
`Vec3i(... * 255.0f)` in `frameBuffer` (`Shared.hpp:311`). -/
def cppTrunc (q : ℚ) : ℤ :=
  if 0 ≤ q then ⌊q⌋ else ⌈q⌉

/-- Embeds Tungsten's `clamp(x, lo, hi)` on integers. -/
def clampInt (v lo hi : ℤ) : ℤ :=
  max lo (min v hi)

/-- One LDR colour channel of `frameBuffer` (`Shared.hpp:311`): the
framebuffer value scaled by 255, truncated to an integer and clamped to
`[0, 255]`. -/
def ldrChannel (q : ℚ) : ℤ :=
  clampInt (cppTrunc (q * 255)) 0 255

/-- One LDR pixel: `ldrChannel` applied to each colour channel. -/
def ldrPixel (c : ℚ × ℚ × ℚ) : ℤ × ℤ × ℤ :=
  (ldrChannel c.1, ldrChannel c.2.1, ldrChannel c.2.2)

/-- Embeds `StandaloneRenderer::frameBuffer` (`Shared.hpp:300`): `nullptr`
(`none`) when no scene or no flattened scene is loaded, otherwise the LDR
buffer indexed as `ldr[x + y*res.x]`. -/
def StandaloneRenderer.frameBuffer (r : StandaloneRenderer) : Option (List (ℤ × ℤ × ℤ)) :=
  match r.scene, r.flattenedScene with
  | some sc, true =>
    some ((List.range (sc.resX * sc.resY)).map fun i =>
      ldrPixel (sc.framebufferValue (i % sc.resX) (i / sc.resX)))
  | _, _ => none

/-- Concrete scene without lights, used to instantiate theorems. -/
def emptyLightScene : SceneModel :=
  { sampleScene with lights := [] }

/-- Concrete all-zero splat buffer, used to instantiate theorems. -/
def zeroSplatBuffer : SplatBuffer where
  radiance := fun _ => 0
  sampleCount := fun _ => 0

/-- Concrete status record with two queued scenes, used to instantiate
theorems. -/
def sampleStatus : RendererStatus where
  state := 0
  currentSpp := 0
  nextSpp := 0
  totalSpp := 0
  completedScenes := []
  currentScene := ""
  queuedScenes := ["a", "b"]

/-- Concrete status record with an out-of-range state value, used to
instantiate theorems. -/
def statusFive : RendererStatus where
  state := 5
  currentSpp := 1
  nextSpp := 2
  totalSpp := 3
  completedScenes := ["x"]
  currentScene := "cur"
  queuedScenes := []

/-- Concrete loaded-scene data, used to instantiate theorems. -/
def sampleSceneData : SceneData where
  spp := 16
  resX := 1
  resY := 1
  framebufferValue := fun _ _ => (0, 0, 0)

/-- Concrete renderer with two queued scenes and nothing loaded, used to
instantiate theorems. -/
def sampleRenderer : StandaloneRenderer where
  status := sampleStatus
  scene := none
  flattenedScene := false

/-- Concrete renderer with a loaded and flattened scene, used to
instantiate theorems. -/
def loadedRenderer : StandaloneRenderer where
  status := sampleStatus
  scene := some sampleSceneData
  flattenedScene := true

/-- C1: for every fixed total path length `s + t` and every assignment of
positive sampling densities to the valid alternative strategies `(s', t')`
with `s' + t' = s + t`, the balance-heuristic MIS weights over all valid
strategies sum to exactly 1. -/
theorem misWeight_sum_eq_one (k : ℕ) (pdf : ℕ × ℕ → ℚ) (valid : Finset (ℕ × ℕ))
    (hk : ∀ q ∈ valid, q.1 + q.2 = k) (hpos : ∀ q ∈ valid, 0 < pdf q)
    (hne : valid.Nonempty) :
    ∑ st ∈ valid, misWeight pdf valid st = 1 := by
  have hsum : 0 < ∑ q ∈ valid, pdf q := Finset.sum_pos hpos hne
  unfold misWeight
  rw [← Finset.sum_div]
  exact div_self (ne_of_gt hsum)

/-- Witness for C1 at total length 2 with strategies (0,2), (1,1), (2,0). -/
theorem misWeight_sum_eq_one_witness :
    ∑ st ∈ ({(0, 2), (1, 1), (2, 0)} : Finset (ℕ × ℕ)),
      misWeight (fun q => (q.1 : ℚ) + 1) {(0, 2), (1, 1), (2, 0)} st = 1 := by
  apply misWeight_sum_eq_one 2
  · decide
  · intro q hq
    fin_cases hq <;> norm_num
  · exact ⟨(0, 2), by decide⟩

/-- C2: for every continuation probability `p` in `(0, 1]` and every
throughput `T`, the Russian roulette step yields `T / p` with probability `p`
and `0` with probability `1 - p`, so its expectation equals `T` exactly and
in particular never exceeds `T`. -/
theorem rouletteExpectation_eq (p T : ℚ) (h0 : 0 < p) (h1 : p ≤ 1) :
    rouletteExpectation p T = T ∧ rouletteExpectation p T ≤ T := by
  have hT : rouletteExpectation p T = T := by
    unfold rouletteExpectation rouletteOutcome
    simp only [if_true, if_false]
    field_simp
  exact ⟨hT, le_of_eq hT⟩

/-- Witness for C2 at `p = 1/2`, `T = 3`. -/
theorem rouletteExpectation_eq_witness :
    rouletteExpectation (1/2) 3 = 3 ∧ rouletteExpectation (1/2) 3 ≤ 3 :=
  rouletteExpectation_eq (1/2) 3 (by norm_num) (by norm_num)

/-- Helper: the random walk never returns more vertices than its fuel. -/
theorem traceWalk_length_le (step : ℕ → ℚ → StepResult) (rng : ℕ → ℚ) (warmup : ℕ) :
    ∀ fuel depth tp, (traceWalk step rng warmup fuel depth tp).length ≤ fuel := by
  intro fuel
  induction fuel with
  | zero => intro depth tp; simp [traceWalk]
  | succ n ih =>
    intro depth tp
    simp only [traceWalk]
    split
    · simp
    · simp
    · rename_i pdfF wv heq
      by_cases h1 : pdfF ≤ 0 ∨ tp * wv < 0
      · rw [if_pos h1]; simp
      · rw [if_neg h1]
        by_cases h2 : depth < warmup
        · rw [if_pos h2]
          simpa using Nat.succ_le_succ (ih (depth + 1) (tp * wv))
        · rw [if_neg h2]
          by_cases h3 : rng (2 * depth + 1) < rouletteProbability (tp * wv)
          · rw [if_pos h3]
            simpa using
              Nat.succ_le_succ (ih (depth + 1) (tp * wv / rouletteProbability (tp * wv)))
          · rw [if_neg h3]; simp

/-- Helper: every vertex stored by the random walk has positive forward
density and a finite, non-negative throughput. -/
theorem traceWalk_mem_invariant (step : ℕ → ℚ → StepResult) (rng : ℕ → ℚ) (warmup : ℕ) :
    ∀ fuel depth tp, ∀ v ∈ traceWalk step rng warmup fuel depth tp,
      0 < v.pdfForward ∧ ∃ q, v.throughput = some q ∧ 0 ≤ q := by
  intro fuel
  induction fuel with
  | zero => intro depth tp v hv; simp [traceWalk] at hv
  | succ n ih =>
    intro depth tp v
    simp only [traceWalk]
    split
    · intro hv; simp at hv
    · intro hv; simp at hv
    · rename_i pdfF wv heq
      by_cases h1 : pdfF ≤ 0 ∨ tp * wv < 0
      · rw [if_pos h1]; intro hv; simp at hv
      · rw [if_neg h1]
        push_neg at h1
        by_cases h2 : depth < warmup
        · rw [if_pos h2]
          intro hv
          rcases List.mem_cons.mp hv with rfl | hv
          · exact ⟨h1.1, tp * wv, rfl, h1.2⟩
          · exact ih (depth + 1) (tp * wv) v hv
        · rw [if_neg h2]
          by_cases h3 : rng (2 * depth + 1) < rouletteProbability (tp * wv)
          · rw [if_pos h3]
            intro hv
            rcases List.mem_cons.mp hv with rfl | hv
            · exact ⟨h1.1, tp * wv, rfl, h1.2⟩
            · exact ih (depth + 1) (tp * wv / rouletteProbability (tp * wv)) v hv
          · rw [if_neg h3]
            intro hv
            rcases List.mem_singleton.mp hv with rfl
            exact ⟨h1.1, tp * wv, rfl, h1.2⟩

/-- C5: every vertex stored in a camera path or light path by
`traceCameraPath` or `traceLightPath` has forward density > 0 and a finite
(`some`), non-negative throughput; a step producing a non-finite or negative
throughput terminates the walk without storing the vertex, so no such value
is ever stored. -/
theorem tracePath_vertex_invariant (scene : SceneModel) (pixel : ℕ) (rng rng2 : ℕ → ℚ) :
    (∀ v ∈ traceCameraPath scene pixel rng,
      0 < v.pdfForward ∧ ∃ q, v.throughput = some q ∧ 0 ≤ q) ∧
    (∀ v ∈ traceLightPath scene rng2,
      0 < v.pdfForward ∧ ∃ q, v.throughput = some q ∧ 0 ≤ q) := by
  constructor
  · intro v hv
    unfold traceCameraPath at hv
    split_ifs at hv with h
    · simp at hv
    · rcases List.mem_cons.mp hv with rfl | hv
      · exact ⟨not_le.mp h, 1, rfl, by norm_num⟩
      · exact traceWalk_mem_invariant (scene.step pixel) rng scene.warmupDepth
          scene.maxBounces 1 1 v hv
  · intro v hv
    unfold traceLightPath at hv
    split_ifs at hv with ha hb hc
    · simp at hv
    · simp at hv
    · simp at hv
    · rcases List.mem_cons.mp hv with rfl | hv
      · exact ⟨not_le.mp hc, 1, rfl, by norm_num⟩
      · exact traceWalk_mem_invariant scene.lightStep rng2 scene.warmupDepth
          scene.maxBounces 1 1 v hv

/-- Witness for C5 on the concrete sample scene: the camera vertex of the
one-vertex camera path satisfies the invariant. -/
theorem tracePath_vertex_invariant_witness :
    (0 : ℚ) < PathVertex.pdfForward ⟨1, some 1⟩ ∧
      ∃ q, PathVertex.throughput ⟨1, some 1⟩ = some q ∧ 0 ≤ q :=
  (tracePath_vertex_invariant sampleScene 0 (fun _ => 0) (fun _ => 0)).1
    ⟨1, some 1⟩ (by decide)

/-- C7: both path constructors terminate with a realized path length that
never exceeds the fixed maximum (`maxBounces` walk vertices plus the seed
vertex, the size of the per-worker scratch buffer), regardless of the
Russian roulette outcome. -/
theorem tracePath_length_le (scene : SceneModel) (pixel : ℕ) (rng rng2 : ℕ → ℚ) :
    (traceCameraPath scene pixel rng).length ≤ scene.maxBounces + 1 ∧
    (traceLightPath scene rng2).length ≤ scene.maxBounces + 1 := by
  constructor
  · unfold traceCameraPath
    split_ifs
    · simp
    · simpa using Nat.succ_le_succ
        (traceWalk_length_le (scene.step pixel) rng scene.warmupDepth scene.maxBounces 1 1)
  · unfold traceLightPath
    split_ifs
    · simp
    · simp
    · simp
    · simpa using Nat.succ_le_succ
        (traceWalk_length_le scene.lightStep rng2 scene.warmupDepth scene.maxBounces 1 1)

/-- C3: `traceSample` is a deterministic pure function of its random stream:
two invocations for the same pixel against the same read-only scene, given
streams that agree pointwise, produce identical primary RGB estimates and
identical splat-write lists. -/
theorem traceSample_deterministic (scene : SceneModel) (rng1 rng2 : ℕ → ℚ) (pixel : ℕ)
    (h : ∀ i, rng1 i = rng2 i) :
    traceSample scene rng1 pixel = traceSample scene rng2 pixel := by
  have heq : rng1 = rng2 := funext h
  rw [heq]

/-- Witness for C3 on the concrete sample scene, with two syntactically
different but pointwise-equal streams. -/
theorem traceSample_deterministic_witness :
    (∀ i : ℕ, (fun _ : ℕ => (0 : ℚ)) i = (fun j : ℕ => (j : ℚ) * 0) i) ∧
      traceSample sampleScene (fun _ => 0) 0 =
        traceSample sampleScene (fun j => (j : ℚ) * 0) 0 :=
  ⟨fun i => (mul_zero (i : ℚ)).symm,
    traceSample_deterministic sampleScene (fun _ => 0) (fun j => (j : ℚ) * 0) 0
      (fun i => (mul_zero (i : ℚ)).symm)⟩

/-- Helper: against an empty light path, the primary estimate degenerates to
the plain path-tracing (`t = 0`) estimate. -/
theorem primaryEstimate_nil (scene : SceneModel) (cp : List PathVertex) :
    primaryEstimate scene cp [] = pathTracingOnlyEstimate scene cp := by
  unfold primaryEstimate pathTracingOnlyEstimate
  refine Finset.sum_congr (by simp) fun s _ => ?_
  rw [List.length_nil, Finset.sum_range_one]
  exact if_congr (by omega) rfl rfl

/-- Helper: against an empty light path there are no splat contributions. -/
theorem splatContributions_nil (scene : SceneModel) (cp : List PathVertex) :
    splatContributions scene cp [] = [] := by
  unfold splatContributions
  have h0 : List.range (List.length ([] : List PathVertex) + 1) = [0] := by
    simp [List.range_succ]
  rw [h0]
  simp

/-- C6: if the scene contains no lights, `traceLightPath` yields the empty
(zero-length) path, and `traceSample` degenerates to the plain path-tracing
(`t = 0`) strategies with no splat writes — handled as normal behaviour (the
function still returns a value, no error state exists in the model). -/
theorem traceSample_no_lights (scene : SceneModel) (rng : ℕ → ℚ) (pixel : ℕ)
    (h : scene.lights = []) :
    traceLightPath scene (fun i => rng (2 * i + 1)) = [] ∧
    traceSample scene rng pixel =
      (pathTracingOnlyEstimate scene (traceCameraPath scene pixel fun i => rng (2 * i)),
        []) := by
  have hlp : traceLightPath scene (fun i => rng (2 * i + 1)) = [] := by
    unfold traceLightPath
    rw [if_pos h]
  refine ⟨hlp, ?_⟩
  unfold traceSample
  rw [hlp, primaryEstimate_nil, splatContributions_nil]

/-- Witness for C6 on the concrete scene without lights. -/
theorem traceSample_no_lights_witness :
    emptyLightScene.lights = [] ∧
      (traceLightPath emptyLightScene (fun i => (fun _ : ℕ => (0 : ℚ)) (2 * i + 1)) = [] ∧
        traceSample emptyLightScene (fun _ => 0) 0 =
          (pathTracingOnlyEstimate emptyLightScene
              (traceCameraPath emptyLightScene 0 fun i => (fun _ : ℕ => (0 : ℚ)) (2 * i)),
            [])) :=
  ⟨rfl, traceSample_no_lights emptyLightScene (fun _ => 0) 0 rfl⟩

/-- Helper: applying a sequence of `addSplat` calls adds, at every pixel,
exactly the sum of the values aimed at that pixel and increments its sample
count once per call aimed at it. -/
theorem applySplats_pixel (p : ℕ) :
    ∀ (ops : List (ℕ × ℚ)) (b : SplatBuffer),
      (applySplats b ops).radiance p =
          b.radiance p + (((ops.filter fun o => o.1 == p).map Prod.snd).sum) ∧
      (applySplats b ops).sampleCount p =
          b.sampleCount p + (ops.filter fun o => o.1 == p).length := by
  intro ops
  induction ops with
  | nil => intro b; simp [applySplats]
  | cons op rest ih =>
    intro b
    have hstep : applySplats b (op :: rest) = applySplats (addSplat b op.1 op.2) rest := rfl
    obtain ⟨ihr, ihc⟩ := ih (addSplat b op.1 op.2)
    by_cases hp : op.1 = p
    · have hfil : (op :: rest).filter (fun o => o.1 == p) =
          op :: rest.filter (fun o => o.1 == p) := by
        simp [List.filter_cons, hp]
      have hrad : (addSplat b op.1 op.2).radiance p = b.radiance p + op.2 := by
        show (if p = op.1 then b.radiance p + op.2 else b.radiance p) = b.radiance p + op.2
        rw [if_pos hp.symm]
      have hcnt : (addSplat b op.1 op.2).sampleCount p = b.sampleCount p + 1 := by
        show (if p = op.1 then b.sampleCount p + 1 else b.sampleCount p) =
          b.sampleCount p + 1
        rw [if_pos hp.symm]
      constructor
      · rw [hstep, ihr, hrad, hfil, List.map_cons, List.sum_cons]
        ring
      · rw [hstep, ihc, hcnt, hfil, List.length_cons]
        omega
    · have hfil : (op :: rest).filter (fun o => o.1 == p) =
          rest.filter (fun o => o.1 == p) := by
        simp [List.filter_cons, hp]
      have hrad : (addSplat b op.1 op.2).radiance p = b.radiance p := by
        show (if p = op.1 then b.radiance p + op.2 else b.radiance p) = b.radiance p
        rw [if_neg fun hc => hp hc.symm]
      have hcnt : (addSplat b op.1 op.2).sampleCount p = b.sampleCount p := by
        show (if p = op.1 then b.sampleCount p + 1 else b.sampleCount p) = b.sampleCount p
        rw [if_neg fun hc => hp hc.symm]
      exact ⟨by rw [hstep, ihr, hfil, hrad], by rw [hstep, ihc, hfil, hcnt]⟩

/-- C4: for every finite set of concurrent `addSplat` calls — an
interleaving being any permutation of the calls, since each call is one
atomic update — the final accumulated radiance at a pixel equals its initial
value plus the exact arithmetic sum of the values aimed at it, and its
sample count is incremented once per call, with no lost updates in any
ordering. -/
theorem addSplat_no_lost_updates (ops interleaving : List (ℕ × ℚ))
    (h : ops.Perm interleaving) (b : SplatBuffer) (p : ℕ) :
    (applySplats b interleaving).radiance p =
        b.radiance p + (((ops.filter fun o => o.1 == p).map Prod.snd).sum) ∧
    (applySplats b interleaving).sampleCount p =
        b.sampleCount p + (ops.filter fun o => o.1 == p).length := by
  obtain ⟨hr, hc⟩ := applySplats_pixel p interleaving b
  have hperm : (ops.filter fun o => o.1 == p).Perm
      (interleaving.filter fun o => o.1 == p) := h.filter _
  refine ⟨?_, ?_⟩
  · rw [hr, ((hperm.map Prod.snd).sum_eq).symm]
  · rw [hc, hperm.length_eq]

/-- Witness for C4: splats (0, 2) and (1, 5) applied in swapped order to the
zero buffer. -/
theorem addSplat_no_lost_updates_witness :
    List.Perm [((0 : ℕ), (2 : ℚ)), (1, 5)] [(1, 5), (0, 2)] ∧
      ((applySplats zeroSplatBuffer [(1, 5), (0, 2)]).radiance 0 =
          zeroSplatBuffer.radiance 0 +
            ((([((0 : ℕ), (2 : ℚ)), (1, 5)].filter fun o => o.1 == 0).map Prod.snd).sum) ∧
        (applySplats zeroSplatBuffer [(1, 5), (0, 2)]).sampleCount 0 =
          zeroSplatBuffer.sampleCount 0 +
            ([((0 : ℕ), (2 : ℚ)), (1, 5)].filter fun o => o.1 == 0).length) :=
  ⟨List.Perm.swap (1, 5) (0, 2) [],
    addSplat_no_lost_updates [(0, 2), (1, 5)] [(1, 5), (0, 2)]
      (List.Perm.swap (1, 5) (0, 2) []) zeroSplatBuffer 0⟩

/-- C8: `StandaloneRenderer::renderScene` returns `false` (leaving the state
unchanged) iff the queued-scenes deque is empty when called; otherwise it
removes exactly the front scene (FIFO order) and returns `true` — including
when loading or rendering throws `std::runtime_error`, which is caught and
handled rather than propagated (the model is a total function over all
collaborator outcomes). -/
theorem renderScene_queue_behavior (r : StandaloneRenderer) (oc : RenderOutcome)
    (ld : SceneData) :
    ((r.renderScene oc ld).1 = false ↔ r.status.queuedScenes = []) ∧
    (r.status.queuedScenes = [] → r.renderScene oc ld = (false, r)) ∧
    (∀ front rest, r.status.queuedScenes = front :: rest →
      (r.renderScene oc ld).1 = true ∧
      (r.renderScene oc ld).2.status.queuedScenes = rest ∧
      (r.renderScene oc ld).2.status.currentScene = front) := by
  rcases hq : r.status.queuedScenes with _ | ⟨front, rest⟩
  · unfold StandaloneRenderer.renderScene
    rw [hq]
    cases oc <;> simp [hq]
  · unfold StandaloneRenderer.renderScene
    rw [hq]
    cases oc <;> simp [hq]

/-- Witness for C8 on the concrete renderer with queue ["a", "b"]. -/
theorem renderScene_queue_behavior_witness :
    sampleRenderer.status.queuedScenes = "a" :: ["b"] ∧
      ((sampleRenderer.renderScene RenderOutcome.success sampleSceneData).1 = true ∧
        (sampleRenderer.renderScene
            RenderOutcome.success sampleSceneData).2.status.queuedScenes = ["b"] ∧
        (sampleRenderer.renderScene
            RenderOutcome.success sampleSceneData).2.status.currentScene = "a") :=
  ⟨rfl, (renderScene_queue_behavior sampleRenderer RenderOutcome.success
      sampleSceneData).2.2 "a" ["b"] rfl⟩

/-- Helper: one LDR channel always lies in `[0, 255]`. -/
theorem ldrChannel_bounds (q : ℚ) : 0 ≤ ldrChannel q ∧ ldrChannel q ≤ 255 := by
  unfold ldrChannel clampInt
  exact ⟨le_max_left _ _, max_le (by norm_num) (min_le_right _ _)⟩

/-- C9: `StandaloneRenderer::frameBuffer` returns `nullptr` (`none`) whenever
no scene or no flattened scene is loaded; otherwise it returns a buffer of
exactly `resolution.x * resolution.y` pixels whose colour channels all lie
in `[0, 255]`, each obtained by clamping the camera framebuffer value scaled
by 255. -/
theorem frameBuffer_spec (r : StandaloneRenderer) :
    (r.scene = none ∨ r.flattenedScene = false → r.frameBuffer = none) ∧
    (∀ sc, r.scene = some sc → r.flattenedScene = true →
      ∃ buf, r.frameBuffer = some buf ∧ buf.length = sc.resX * sc.resY ∧
        ∀ px ∈ buf, (0 ≤ px.1 ∧ px.1 ≤ 255) ∧ (0 ≤ px.2.1 ∧ px.2.1 ≤ 255) ∧
          (0 ≤ px.2.2 ∧ px.2.2 ≤ 255)) := by
  constructor
  · rintro (h | h) <;> unfold StandaloneRenderer.frameBuffer
    · rw [h]
    · rw [h]
      cases r.scene <;> rfl
  · intro sc h1 h2
    have hfb : r.frameBuffer =
        some ((List.range (sc.resX * sc.resY)).map fun i =>
          ldrPixel (sc.framebufferValue (i % sc.resX) (i / sc.resX))) := by
      unfold StandaloneRenderer.frameBuffer
      rw [h1, h2]
    refine ⟨_, hfb, ?_, ?_⟩
    · simp
    · intro px hpx
      obtain ⟨i, _, hpi⟩ := List.mem_map.mp hpx
      rw [← hpi]
      exact ⟨ldrChannel_bounds _, ldrChannel_bounds _, ldrChannel_bounds _⟩

/-- Witness for C9 on the concrete loaded renderer. -/
theorem frameBuffer_spec_witness :
    loadedRenderer.scene = some sampleSceneData ∧ loadedRenderer.flattenedScene = true ∧
      ∃ buf, loadedRenderer.frameBuffer = some buf ∧
        buf.length = sampleSceneData.resX * sampleSceneData.resY ∧
        ∀ px ∈ buf, (0 ≤ px.1 ∧ px.1 ≤ 255) ∧ (0 ≤ px.2.1 ∧ px.2.1 ≤ 255) ∧
          (0 ≤ px.2.2 ∧ px.2.2 ≤ 255) :=
  ⟨rfl, rfl, (frameBuffer_spec loadedRenderer).2 sampleSceneData rfl rfl⟩

/-- C10: `RendererStatus::toJson` always emits the members `state`,
`current_spp`, `next_spp`, `total_spp` and `current_scene`; it emits the
`completed_scenes` (resp. `queued_scenes`) array iff the corresponding
container is non-empty; and the `state` member is `"loading"` for
`STATE_LOADING`, `"rendering"` for `STATE_RENDERING`, and `"unknown"` for
any other value. -/
theorem toJson_members (r : RendererStatus) :
    ("state", JsonValue.str (renderStateToString r.state)) ∈ r.toJson ∧
    ("current_spp", JsonValue.num r.currentSpp) ∈ r.toJson ∧
    ("next_spp", JsonValue.num r.nextSpp) ∈ r.toJson ∧
    ("total_spp", JsonValue.num r.totalSpp) ∈ r.toJson ∧
    ("current_scene", JsonValue.str r.currentScene) ∈ r.toJson ∧
    (("completed_scenes", JsonValue.arr r.completedScenes) ∈ r.toJson ↔
      r.completedScenes ≠ []) ∧
    (("queued_scenes", JsonValue.arr r.queuedScenes) ∈ r.toJson ↔
      r.queuedScenes ≠ []) ∧
    (r.state = STATE_LOADING → renderStateToString r.state = "loading") ∧
    (r.state = STATE_RENDERING → renderStateToString r.state = "rendering") ∧
    (r.state ≠ STATE_LOADING ∧ r.state ≠ STATE_RENDERING →
      renderStateToString r.state = "unknown") := by
  refine ⟨?_, ?_, ?_, ?_, ?_, ?_, ?_, ?_, ?_, ?_⟩
  · by_cases hc : r.completedScenes = [] <;> by_cases hq : r.queuedScenes = [] <;>
      simp [RendererStatus.toJson, hc, hq]
  · by_cases hc : r.completedScenes = [] <;> by_cases hq : r.queuedScenes = [] <;>
      simp [RendererStatus.toJson, hc, hq]
  · by_cases hc : r.completedScenes = [] <;> by_cases hq : r.queuedScenes = [] <;>
      simp [RendererStatus.toJson, hc, hq]
  · by_cases hc : r.completedScenes = [] <;> by_cases hq : r.queuedScenes = [] <;>
      simp [RendererStatus.toJson, hc, hq]
  · by_cases hc : r.completedScenes = [] <;> by_cases hq : r.queuedScenes = [] <;>
      simp [RendererStatus.toJson, hc, hq]
  · by_cases hc : r.completedScenes = [] <;> by_cases hq : r.queuedScenes = [] <;>
      simp [RendererStatus.toJson, hc, hq]
  · by_cases hc : r.completedScenes = [] <;> by_cases hq : r.queuedScenes = [] <;>
      simp [RendererStatus.toJson, hc, hq]
  · intro h
    simp [renderStateToString, h]
  · intro h
    simp [renderStateToString, h, STATE_LOADING, STATE_RENDERING]
  · intro h
    simp [renderStateToString, h.1, h.2]

/-- Witness for C10 on the concrete status record with out-of-range state 5:
its state string is "unknown". -/
theorem toJson_members_witness :
    (statusFive.state ≠ STATE_LOADING ∧ statusFive.state ≠ STATE_RENDERING) ∧
      renderStateToString statusFive.state = "unknown" :=
  ⟨⟨by decide, by decide⟩,
    (toJson_members statusFive).2.2.2.2.2.2.2.2.2 ⟨by decide, by decide⟩⟩

end Tungsten
